import Mathlib

/-!
Verification of the Light Pilot addon for Blender
(src/LightPilotforBlender.py).

The file is a shallow embedding of the addon's modal control loop — the
transform-synchronisation and view-state save/restore logic — together with
theorems about the specified behaviour.

Modelling conventions:
* Floating-point scalars are modelled by the exact reals `ℝ`.
* `mathutils.Vector` and `mathutils.Quaternion` are modelled by `Vec3` and
  `Quat`; rotating a vector by a quaternion divides by the squared norm, which
  is exactly rotation by the normalised quaternion (mathutils semantics) and
  avoids square roots.
* Blender object references are modelled by object names (names are unique
  keys of `bpy.data.objects`).
* `RegionView3D.view_matrix` is a quantity Blender derives from the view
  pivot (`view_location`), `view_rotation` and `view_distance`; the two reads
  the addon performs on it (`view_matrix.inverted().translation`, the eye
  position, and row 2 of `view_matrix.to_3x3()`, the backward axis) are
  modelled by `RegionData.viewMatrixInvTranslation` and
  `RegionData.viewMatrixRow2`.
* The Python dict `previous_view_state` is modelled by a record of `Option`
  fields: a key that is absent is `none`.
* `self.report(...)` calls are collected in the `reports` list of an
  `Outcome`; UI redraw requests (`region.tag_redraw()`) have no modelled
  effect.
-/

noncomputable section

/-- Models mathutils.Vector with three components (exact reals). -/
structure Vec3 where
  x : ℝ
  y : ℝ
  z : ℝ

/-- Componentwise addition of vectors. -/
def Vec3.add (a b : Vec3) : Vec3 := ⟨a.x + b.x, a.y + b.y, a.z + b.z⟩

/-- Scalar multiple of a vector. -/
def Vec3.smul (c : ℝ) (v : Vec3) : Vec3 := ⟨c * v.x, c * v.y, c * v.z⟩

/-- Componentwise negation of a vector. -/
def Vec3.neg (v : Vec3) : Vec3 := ⟨-v.x, -v.y, -v.z⟩

/-- Squared euclidean norm of a vector. -/
def Vec3.normSq (v : Vec3) : ℝ := v.x ^ 2 + v.y ^ 2 + v.z ^ 2

/-- Euclidean norm of a vector. -/
def Vec3.norm (v : Vec3) : ℝ := Real.sqrt v.normSq

/-- Models mathutils Vector.normalized / Vector.normalize: scale to unit
length; the zero vector stays zero (in Lean `1 / 0 = 0`). -/
def Vec3.normalize (v : Vec3) : Vec3 := Vec3.smul (1 / v.norm) v

/-- Models mathutils.Quaternion (components w, x, y, z; exact reals). -/
structure Quat where
  w : ℝ
  x : ℝ
  y : ℝ
  z : ℝ

/-- Hamilton product of quaternions. -/
def Quat.mul (a b : Quat) : Quat :=
  ⟨a.w * b.w - a.x * b.x - a.y * b.y - a.z * b.z,
   a.w * b.x + a.x * b.w + a.y * b.z - a.z * b.y,
   a.w * b.y - a.x * b.z + a.y * b.w + a.z * b.x,
   a.w * b.z + a.x * b.y - a.y * b.x + a.z * b.w⟩

/-- Quaternion conjugate. -/
def Quat.conj (q : Quat) : Quat := ⟨q.w, -q.x, -q.y, -q.z⟩

/-- Squared norm of a quaternion. -/
def Quat.normSq (q : Quat) : ℝ := q.w ^ 2 + q.x ^ 2 + q.y ^ 2 + q.z ^ 2

/-- Embeds a vector as a pure quaternion. -/
def Quat.ofVec (v : Vec3) : Quat := ⟨0, v.x, v.y, v.z⟩

/-- Vector part of a quaternion. -/
def Quat.vec (q : Quat) : Vec3 := ⟨q.x, q.y, q.z⟩

/-- Models rotating a vector by a quaternion (mathutils `q @ v`): conjugation
by the normalised quaternion, computed without square roots as
`(q.mul (ofVec v)).mul q.conj` scaled by `1 / normSq q`. The zero quaternion
sends every vector to zero. -/
def Quat.rotate (q : Quat) (v : Vec3) : Vec3 :=
  Vec3.smul (1 / q.normSq) (((q.mul (Quat.ofVec v)).mul q.conj).vec)

/-- Models mathutils Vector.to_track_quat with track axis -Z and up axis Y:
a quaternion whose rotation takes the -Z axis to the direction of the given
vector. The degenerate straight-up input is mapped to a half-turn about X
(Blender's `vec_to_quat` epsilon branch); the up-twist about the track axis
is not modelled, since no specified property depends on the up axis. -/
def Vec3.to_track_quat (v : Vec3) : Quat :=
  if v.x = 0 ∧ v.y = 0 ∧ 0 < v.z then ⟨0, 1, 0, 0⟩
  else ⟨1 - v.z, v.y, -v.x, 0⟩

/-- Models mathutils.Euler (three angles; the rotation order is carried by
the owning object's rotation mode). -/
structure Euler where
  x : ℝ
  y : ℝ
  z : ℝ

/-- Two-argument arctangent, via the argument of a complex number. -/
def atan2 (y x : ℝ) : ℝ := Complex.arg ⟨x, y⟩

/-- Models mathutils Euler.to_quaternion for the XYZ rotation order:
the composition of the axis rotations about Z, Y and X. -/
def Euler.to_quaternion (e : Euler) : Quat :=
  Quat.mul ⟨Real.cos (e.z / 2), 0, 0, Real.sin (e.z / 2)⟩
    (Quat.mul ⟨Real.cos (e.y / 2), 0, Real.sin (e.y / 2), 0⟩
      ⟨Real.cos (e.x / 2), Real.sin (e.x / 2), 0, 0⟩)

/-- Rotation modes of a Blender object: quaternion mode or an Euler order
(the Euler orders are collapsed to XYZ; the addon only distinguishes
QUATERNION from the rest). -/
inductive RotMode where
  | QUATERNION
  | XYZ
deriving DecidableEq

/-- Models mathutils Quaternion.to_euler (standard extraction of XYZ Euler
angles from a unit quaternion). -/
def Quat.to_euler (q : Quat) (_mode : RotMode) : Euler :=
  ⟨atan2 (2 * (q.w * q.x + q.y * q.z)) (1 - 2 * (q.x ^ 2 + q.y ^ 2)),
   Real.arcsin (2 * (q.w * q.y - q.z * q.x)),
   atan2 (2 * (q.w * q.z + q.x * q.y)) (1 - 2 * (q.y ^ 2 + q.z ^ 2))⟩

/-- Light data types (`light.data.type`). -/
inductive LightType where
  | POINT
  | SUN
  | SPOT
  | AREA
deriving DecidableEq

/-- Models the membership test `light_obj.data.type in ['SUN', 'SPOT', 'AREA']`
used at lines 54, 149 and 253 of the source. -/
def isDirectional (t : LightType) : Bool :=
  t = LightType.SUN ∨ t = LightType.SPOT ∨ t = LightType.AREA

/-- Object types (`object.type`); only LIGHT matters to the addon. -/
inductive ObjType where
  | LIGHT
  | OTHER
deriving DecidableEq

/-- Viewport projection modes (`region_data.view_perspective`). -/
inductive ViewPers where
  | PERSP
  | ORTHO
  | CAMERA
deriving DecidableEq

/-- Editor area types (`context.area.type`); only VIEW_3D matters. -/
inductive AreaType where
  | VIEW_3D
  | OTHER
deriving DecidableEq

/-- Event types; only ESC is inspected by the modal loop. -/
inductive EventType where
  | ESC
  | OTHER
deriving DecidableEq

/-- Event values; only PRESS is inspected by the modal loop. -/
inductive EventValue where
  | PRESS
  | OTHER
deriving DecidableEq

/-- Models a window-manager event (`event.type`, `event.value`). -/
structure Event where
  type : EventType
  value : EventValue

/-- Models a Blender scene object as far as the addon reads or writes it:
name, type tag, transform fields, and the light data type. -/
structure Obj where
  name : String
  obj_type : ObjType
  location : Vec3
  rotation_mode : RotMode
  rotation_quaternion : Quat
  rotation_euler : Euler
  /-- Rotation part of `matrix_world` (as read by `matrix_world.to_quaternion()`). -/
  matrix_world_quat : Quat
  /-- Light data type (`obj.data.type`); meaningful when `obj_type = LIGHT`. -/
  data_type : LightType

/-- Models the fields of `context.region_data` the addon touches. -/
structure RegionData where
  view_location : Vec3
  view_rotation : Quat
  view_distance : ℝ
  view_perspective : ViewPers

/-- Models the fields of `context.space_data` the addon touches. -/
structure SpaceData where
  use_local_camera : Bool
  camera : Option String

/-- Models `view_matrix.inverted().translation`: the eye position Blender
derives from the view pivot, rotation and distance — the pivot plus the
distance along the view's local +Z axis. -/
def RegionData.viewMatrixInvTranslation (r : RegionData) : Vec3 :=
  r.view_location.add (Vec3.smul r.view_distance (r.view_rotation.rotate ⟨0, 0, 1⟩))

/-- Models `view_matrix.to_3x3()[2]`: row 2 of the world-to-view rotation,
which is the view's local +Z axis (the backward axis) in world space. -/
def RegionData.viewMatrixRow2 (r : RegionData) : Vec3 :=
  r.view_rotation.rotate ⟨0, 0, 1⟩

/-- The forward axis of the viewport as the addon itself computes it
(line 58 of the source): `-view_matrix.to_3x3()[2].normalized()`. -/
def RegionData.forwardAxis (r : RegionData) : Vec3 :=
  (Vec3.normalize r.viewMatrixRow2).neg

/-- Models the scene-level state the addon touches: the custom property
`scene["lightpilot_active_light"]` (absent = `none`) and the registered
`lightpilot_show_coords` preference. -/
structure Scene where
  lightpilot_active_light : Option String
  lightpilot_show_coords : Bool

/-- Models the relevant parts of `bpy.context` (plus `bpy.data.objects`,
which the addon reads through the same code paths): the area type, the
viewport state, the scene, the object table keyed by name, and the active
object (`context.object`). -/
structure Ctx where
  area_type : AreaType
  region_data : RegionData
  space_data : SpaceData
  scene : Scene
  objects : List (String × Obj)
  object : Option Obj

/-- Models the module-level dict `previous_view_state`: each key is present
(`some`) or absent (`none`). The `camera` key stores an optional camera,
so its presence and its value are separate layers. -/
structure SavedViewState where
  view_location : Option Vec3
  view_rotation : Option Quat
  view_distance : Option ℝ
  view_perspective : Option ViewPers
  use_local_camera : Option Bool
  camera : Option (Option String)

/-- The empty dict: no key present. -/
def SavedViewState.empty : SavedViewState := ⟨none, none, none, none, none, none⟩

/-- Truthiness of the dict (`if previous_view_state:`): false exactly when
no key is present. -/
def SavedViewState.isEmpty (s : SavedViewState) : Bool :=
  s.view_location.isNone && s.view_rotation.isNone && s.view_distance.isNone &&
  s.view_perspective.isNone && s.use_local_camera.isNone && s.camera.isNone

/-- Models the module-level globals of the addon: `is_piloting`,
`piloted_light` (an object reference, modelled by name) and
`previous_view_state`. -/
structure GState where
  is_piloting : Bool
  piloted_light : Option String
  previous_view_state : SavedViewState

/-- Report levels used by the addon. -/
inductive RLevel where
  | INFO
  | ERROR
deriving DecidableEq

/-- A `self.report(level, message)` call. -/
abbrev Report := RLevel × String

/-- Operator return values used by the addon. -/
inductive OpResult where
  | FINISHED
  | CANCELLED
  | RUNNING_MODAL
  | PASS_THROUGH
deriving DecidableEq

/-- Result of one operator entry point: the globals and context after the
call, the reports it issued, and its return value. -/
structure Outcome where
  g : GState
  ctx : Ctx
  reports : List Report
  ret : OpResult

/-- Models `name in bpy.data.objects` / `bpy.data.objects[name]`:
lookup of an object by name. -/
def lookupObj (objs : List (String × Obj)) (name : String) : Option Obj :=
  Option.map (fun p => p.2) (objs.find? (fun p => p.1 == name))

/-- Models an in-place mutation of the object bound to `name`:
the object table with that entry updated. -/
def updateObj (objs : List (String × Obj)) (name : String) (f : Obj → Obj) :
    List (String × Obj) :=
  objs.map (fun p => if p.1 == name then (p.1, f p.2) else p)

/-- Models `LIGHTPILOT_OT_pilot_light_modal.restore_view_state`
(source lines 98-116): if the saved dict is non-empty, each captured field
is written back independently (the camera only when its saved value is
truthy, i.e. not `None`), and the dict is cleared. -/
def restore_view_state (g : GState) (ctx : Ctx) : GState × Ctx :=
  if g.previous_view_state.isEmpty = true then (g, ctx)
  else
    let s := g.previous_view_state
    let rd1 := { ctx.region_data with
      view_perspective := s.view_perspective.getD ctx.region_data.view_perspective }
    let sd1 := { ctx.space_data with
      use_local_camera := s.use_local_camera.getD ctx.space_data.use_local_camera }
    let sd2 := { sd1 with
      camera := match s.camera with
        | some (some c) => some c
        | _ => sd1.camera }
    let rd2 := { rd1 with view_location := s.view_location.getD rd1.view_location }
    let rd3 := { rd2 with view_rotation := s.view_rotation.getD rd2.view_rotation }
    let rd4 := { rd3 with view_distance := s.view_distance.getD rd3.view_distance }
    ({ g with previous_view_state := SavedViewState.empty },
     { ctx with region_data := rd4, space_data := sd2 })

/-- Models `LIGHTPILOT_OT_pilot_light_modal.cleanup` (source lines 80-96),
the addon's Stop(): clear the globals, restore the saved view state, delete
the scene's active-light key if present, report the completion notice and
return FINISHED. This is a total function: no call can raise. -/
def cleanup (g : GState) (ctx : Ctx) : Outcome :=
  let g1 := { g with is_piloting := false, piloted_light := none }
  let gc := restore_view_state g1 ctx
  { g := gc.1,
    ctx := { gc.2 with scene := { gc.2.scene with lightpilot_active_light := none } },
    reports := [(RLevel.INFO, "Exited light pilot mode")],
    ret := OpResult.FINISHED }

/-- Models `LIGHTPILOT_OT_pilot_light_modal.modal` (source lines 35-78), the
addon's Tick. If the active flag is cleared or the area is no longer a 3D
viewport, run cleanup. Otherwise, when the named light still exists: write
the eye position onto the light, for directional light types also write the
view direction onto the light's rotation (in its configured rotation mode),
then clean up on an escape press; in every remaining case (including a
missing light) the event passes through. -/
def modal (light_object : String) (g : GState) (ctx : Ctx) (event : Event) : Outcome :=
  if g.is_piloting = false ∨ ctx.area_type ≠ AreaType.VIEW_3D then
    cleanup g ctx
  else
    match lookupObj ctx.objects light_object with
    | none => { g := g, ctx := ctx, reports := [], ret := OpResult.PASS_THROUGH }
    | some light_obj =>
      let viewer_location := ctx.region_data.viewMatrixInvTranslation
      let objs1 := updateObj ctx.objects light_object
        (fun o => { o with location := viewer_location })
      let objs2 :=
        if isDirectional light_obj.data_type = true then
          let forward := (Vec3.normalize ctx.region_data.viewMatrixRow2).neg
          let quat := forward.to_track_quat
          if light_obj.rotation_mode = RotMode.QUATERNION then
            updateObj objs1 light_object (fun o => { o with rotation_quaternion := quat })
          else
            updateObj objs1 light_object
              (fun o => { o with rotation_euler := quat.to_euler light_obj.rotation_mode })
        else objs1
      let ctx1 := { ctx with objects := objs2 }
      if event.type = EventType.ESC ∧ event.value = EventValue.PRESS then
        cleanup g ctx1
      else
        { g := g, ctx := ctx1, reports := [], ret := OpResult.PASS_THROUGH }

/-- Models `LIGHTPILOT_OT_pilot_light_modal.invoke` (source lines 118-182),
the addon's Start. When the named light exists: capture the full view
snapshot, switch to perspective with local camera off, move the pivot to the
light, set the minimal view distance, set the view rotation from the light
(track quaternion of the facing direction for directional types, the light's
own rotation otherwise), set the globals and the scene key, report, and run
modal. When the name is missing: report the error and cancel. The source
assigns `view_distance = 0.001` twice (lines 146 and 165) with no
intervening read of it; the model assigns it once. -/
def invoke (light_object : String) (g : GState) (ctx : Ctx) (_event : Event) : Outcome :=
  match lookupObj ctx.objects light_object with
  | some light_obj =>
    let g1 := { g with previous_view_state :=
      { view_location := some ctx.region_data.view_location,
        view_rotation := some ctx.region_data.view_rotation,
        view_distance := some ctx.region_data.view_distance,
        view_perspective := some ctx.region_data.view_perspective,
        use_local_camera := some ctx.space_data.use_local_camera,
        camera := some ctx.space_data.camera } }
    let rd1 := { ctx.region_data with view_perspective := ViewPers.PERSP }
    let sd1 := { ctx.space_data with use_local_camera := false }
    let rd2 := { rd1 with view_location := light_obj.location }
    let rd3 := { rd2 with view_distance := 1 / 1000 }
    let rd4 :=
      if isDirectional light_obj.data_type = true then
        let forward_vec := Vec3.normalize (light_obj.matrix_world_quat.rotate ⟨0, 0, -1⟩)
        { rd3 with view_rotation := forward_vec.to_track_quat }
      else
        if light_obj.rotation_mode = RotMode.QUATERNION then
          { rd3 with view_rotation := light_obj.rotation_quaternion }
        else
          { rd3 with view_rotation := light_obj.rotation_euler.to_quaternion }
    let g2 := { g1 with is_piloting := true, piloted_light := some light_obj.name }
    let sc1 := { ctx.scene with lightpilot_active_light := some light_obj.name }
    { g := g2,
      ctx := { ctx with region_data := rd4, space_data := sd1, scene := sc1 },
      reports := [(RLevel.INFO, "Now piloting light: " ++ light_obj.name)],
      ret := OpResult.RUNNING_MODAL }
  | none =>
    { g := g, ctx := ctx,
      reports := [(RLevel.ERROR, "Could not find the specified light")],
      ret := OpResult.CANCELLED }

/-- Models `LIGHTPILOT_OT_pilot_light.poll` (source lines 191-195): available
exactly when the active object exists and is a light. Note it reads only the
context — the session globals are not consulted. -/
def pilot_poll (ctx : Ctx) : Bool :=
  match ctx.object with
  | some o => o.obj_type == ObjType.LIGHT
  | none => false

/-- Models `LIGHTPILOT_OT_pilot_light.execute` (source lines 197-200):
launch the modal operator on the active object's name. The branch without an
active object is unreachable when guarded by `pilot_poll`. -/
def pilot_execute (g : GState) (ctx : Ctx) (ev : Event) : Outcome :=
  match ctx.object with
  | some o => invoke o.name g ctx ev
  | none => { g := g, ctx := ctx, reports := [], ret := OpResult.CANCELLED }

/-- Models `LIGHTPILOT_OT_exit_pilot.poll` (source lines 209-213): available
exactly while a session is active. -/
def exit_poll (g : GState) : Bool := g.is_piloting

/-- Models `LIGHTPILOT_OT_exit_pilot.execute` (source lines 215-220): flip
the active flag to false and return FINISHED; nothing else is touched — the
modal loop performs the cleanup on its next tick. -/
def exit_execute (g : GState) (ctx : Ctx) : Outcome :=
  { g := { g with is_piloting := false }, ctx := ctx,
    reports := [], ret := OpResult.FINISHED }

/-- The view rotation `invoke` installs, as a function of the light (source
lines 148-162): the track quaternion of the light's facing direction for
directional types, otherwise the light's own rotation in its configured
mode. -/
def invokeViewRotation (lo : Obj) : Quat :=
  if isDirectional lo.data_type = true then
    (Vec3.normalize (lo.matrix_world_quat.rotate ⟨0, 0, -1⟩)).to_track_quat
  else
    if lo.rotation_mode = RotMode.QUATERNION then lo.rotation_quaternion
    else lo.rotation_euler.to_quaternion

/-- The light object after one `modal` tick in a given viewport (source
lines 46-67): position overwritten with the eye position; for directional
types the rotation is overwritten with the view direction's track quaternion
in the light's configured rotation mode. -/
def tickedLight (r : RegionData) (lo : Obj) : Obj :=
  let lo1 := { lo with location := r.viewMatrixInvTranslation }
  if isDirectional lo.data_type = true then
    let quat := ((Vec3.normalize r.viewMatrixRow2).neg).to_track_quat
    if lo.rotation_mode = RotMode.QUATERNION then
      { lo1 with rotation_quaternion := quat }
    else
      { lo1 with rotation_euler := quat.to_euler lo.rotation_mode }
  else lo1

/-! Concrete fixtures used by witnesses and counterexamples. -/

/-- Identity quaternion. -/
def qId : Quat := ⟨1, 0, 0, 0⟩

/-- Zero Euler angles. -/
def eul0 : Euler := ⟨0, 0, 0⟩

/-- A SUN light named Sun, in quaternion rotation mode, with identity world
rotation, located at (1, 2, 3). -/
def sunObj : Obj :=
  { name := "Sun", obj_type := ObjType.LIGHT, location := ⟨1, 2, 3⟩,
    rotation_mode := RotMode.QUATERNION, rotation_quaternion := qId,
    rotation_euler := eul0, matrix_world_quat := qId, data_type := LightType.SUN }

/-- A POINT light named Lamp, in Euler rotation mode. -/
def pointObj : Obj :=
  { name := "Lamp", obj_type := ObjType.LIGHT, location := ⟨4, 5, 6⟩,
    rotation_mode := RotMode.XYZ, rotation_quaternion := ⟨0, 0, 1, 0⟩,
    rotation_euler := ⟨1, 0, 0⟩, matrix_world_quat := qId,
    data_type := LightType.POINT }

/-- A POINT light named KeyLight, in quaternion rotation mode. -/
def keyObj : Obj :=
  { name := "KeyLight", obj_type := ObjType.LIGHT, location := ⟨0, 0, 1⟩,
    rotation_mode := RotMode.QUATERNION, rotation_quaternion := qId,
    rotation_euler := eul0, matrix_world_quat := qId,
    data_type := LightType.POINT }

/-- A POINT light named FillLight, in quaternion rotation mode. -/
def fillObj : Obj :=
  { name := "FillLight", obj_type := ObjType.LIGHT, location := ⟨0, 1, 0⟩,
    rotation_mode := RotMode.QUATERNION, rotation_quaternion := qId,
    rotation_euler := eul0, matrix_world_quat := qId,
    data_type := LightType.POINT }

/-- A viewport region state: pivot (7, 8, 9), identity rotation, distance 2,
orthographic projection. -/
def rdFix : RegionData :=
  { view_location := ⟨7, 8, 9⟩, view_rotation := qId, view_distance := 2,
    view_perspective := ViewPers.ORTHO }

/-- A space state with local camera enabled and a bound camera. -/
def sdFix : SpaceData := { use_local_camera := true, camera := some "Cam" }

/-- A scene with no active-light key. -/
def sceneFix : Scene := { lightpilot_active_light := none, lightpilot_show_coords := true }

/-- A non-empty saved view snapshot whose distance entry is 5. -/
def svs5 : SavedViewState :=
  { view_location := some ⟨0, 0, 0⟩, view_rotation := some qId,
    view_distance := some 5, view_perspective := some ViewPers.PERSP,
    use_local_camera := some false, camera := some none }

/-- Idle globals: no session, empty snapshot. -/
def gIdle : GState :=
  { is_piloting := false, piloted_light := none,
    previous_view_state := SavedViewState.empty }

/-- Globals of an active session piloting KeyLight, holding snapshot `svs5`. -/
def gActive : GState :=
  { is_piloting := true, piloted_light := some "KeyLight",
    previous_view_state := svs5 }

/-- Globals of an active session piloting Lamp, holding snapshot `svs5`. -/
def gActiveLamp : GState :=
  { is_piloting := true, piloted_light := some "Lamp",
    previous_view_state := svs5 }

/-- A 3D-viewport context whose only object is the Sun light. -/
def ctxSun : Ctx :=
  { area_type := AreaType.VIEW_3D, region_data := rdFix, space_data := sdFix,
    scene := sceneFix, objects := [("Sun", sunObj)], object := some sunObj }

/-- A 3D-viewport context whose only object is the Lamp point light. -/
def ctxLamp : Ctx :=
  { area_type := AreaType.VIEW_3D, region_data := rdFix, space_data := sdFix,
    scene := sceneFix, objects := [("Lamp", pointObj)], object := some pointObj }

/-- A 3D-viewport context holding KeyLight and FillLight, with FillLight as
the active object. -/
def ctxTwo : Ctx :=
  { area_type := AreaType.VIEW_3D, region_data := rdFix, space_data := sdFix,
    scene := { sceneFix with lightpilot_active_light := some "KeyLight" },
    objects := [("KeyLight", keyObj), ("FillLight", fillObj)],
    object := some fillObj }

/-- An event that is neither escape nor a press. -/
def evOther : Event := ⟨EventType.OTHER, EventValue.OTHER⟩

/-- An escape key press. -/
def evEsc : Event := ⟨EventType.ESC, EventValue.PRESS⟩

/-! Helper lemmas about the embedded operations. -/

theorem SavedViewState.eq_empty_of_isEmpty {s : SavedViewState}
    (h : s.isEmpty = true) : s = SavedViewState.empty := by
  obtain ⟨l, r, d, p, u, c⟩ := s
  simp only [SavedViewState.isEmpty, Bool.and_eq_true, Option.isNone_iff_eq_none] at h
  obtain ⟨⟨⟨⟨⟨hl, hr⟩, hd⟩, hp⟩, hu⟩, hc⟩ := h
  simp [SavedViewState.empty, hl, hr, hd, hp, hu, hc]

theorem cleanup_g (g : GState) (ctx : Ctx) :
    (cleanup g ctx).g =
      { is_piloting := false, piloted_light := none,
        previous_view_state := SavedViewState.empty } := by
  by_cases h : g.previous_view_state.isEmpty = true
  · simp [cleanup, restore_view_state, h, SavedViewState.eq_empty_of_isEmpty h,
      SavedViewState.isEmpty, SavedViewState.empty]
  · simp [cleanup, restore_view_state, h]

theorem cleanup_reports (g : GState) (ctx : Ctx) :
    (cleanup g ctx).reports = [(RLevel.INFO, "Exited light pilot mode")] := rfl

theorem cleanup_ret (g : GState) (ctx : Ctx) :
    (cleanup g ctx).ret = OpResult.FINISHED := rfl

theorem cleanup_objects (g : GState) (ctx : Ctx) :
    (cleanup g ctx).ctx.objects = ctx.objects := by
  by_cases h : g.previous_view_state.isEmpty = true
  · simp [cleanup, restore_view_state, h]
  · simp [cleanup, restore_view_state, h]

theorem find?_updateObj (objs : List (String × Obj)) (name : String) (f : Obj → Obj) :
    (updateObj objs name f).find? (fun p => p.1 == name) =
      Option.map (fun p => (p.1, f p.2)) (objs.find? (fun p => p.1 == name)) := by
  induction objs with
  | nil => rfl
  | cons hd tl ih =>
    have hexp : updateObj (hd :: tl) name f =
        (if (hd.1 == name) = true then (hd.1, f hd.2) else hd) :: updateObj tl name f := by
      simp [updateObj]
    rw [hexp]
    by_cases h : (hd.1 == name) = true
    · rw [if_pos h]
      simp [List.find?_cons, h]
    · have hf : (hd.1 == name) = false := by simpa using h
      rw [if_neg h]
      simp [List.find?_cons, hf, ih]

theorem lookupObj_updateObj (objs : List (String × Obj)) (name : String) (f : Obj → Obj) :
    lookupObj (updateObj objs name f) name = Option.map f (lookupObj objs name) := by
  simp [lookupObj, find?_updateObj, Option.map_map]
  rfl

theorem Vec3.normalize_of_unit {v : Vec3} (h : v.normSq = 1) : v.normalize = v := by
  obtain ⟨a, b, c⟩ := v
  simp [Vec3.normalize, Vec3.norm, h, Real.sqrt_one, Vec3.smul]

theorem Vec3.normSq_neg (v : Vec3) : v.neg.normSq = v.normSq := by
  simp [Vec3.neg, Vec3.normSq]

theorem Vec3.neg_neg_eq (v : Vec3) : v.neg.neg = v := by
  simp [Vec3.neg]

/-- The track quaternion really aligns the -Z axis with the (unit) input
vector: rotating `(0, 0, -1)` by `v.to_track_quat` gives back `v`. -/
theorem rotate_to_track_quat_negZ (f : Vec3) (hf : f.normSq = 1) :
    (Vec3.to_track_quat f).rotate ⟨0, 0, -1⟩ = f := by
  obtain ⟨a, b, c⟩ := f
  have hf1 : a ^ 2 + b ^ 2 + c ^ 2 = 1 := by simpa [Vec3.normSq] using hf
  rw [Vec3.to_track_quat]
  by_cases hdeg : a = 0 ∧ b = 0 ∧ 0 < c
  · obtain ⟨ha, hb, hc⟩ := hdeg
    subst ha; subst hb
    have hc1 : c = 1 := by nlinarith
    subst hc1
    rw [if_pos (by norm_num)]
    simp [Quat.rotate, Quat.mul, Quat.conj, Quat.normSq, Quat.ofVec, Quat.vec, Vec3.smul]
  · have hc1 : c ≠ 1 := by
      intro hc
      subst hc
      have ha : a = 0 := by nlinarith
      have hb : b = 0 := by nlinarith
      exact hdeg ⟨ha, hb, by norm_num⟩
    have h1c : (1 : ℝ) - c ≠ 0 := sub_ne_zero.mpr fun hh => hc1 hh.symm
    rw [if_neg hdeg]
    have key : ((Quat.mul ⟨1 - c, b, -a, 0⟩ (Quat.ofVec ⟨0, 0, -1⟩)).mul
        (Quat.conj ⟨1 - c, b, -a, 0⟩)).vec = Vec3.smul (2 * (1 - c)) ⟨a, b, c⟩ := by
      simp only [Quat.mul, Quat.ofVec, Quat.conj, Quat.vec, Vec3.smul, Vec3.mk.injEq]
      refine ⟨by ring, by ring, by linear_combination hf1⟩
    have hN : Quat.normSq ⟨1 - c, b, -a, 0⟩ = 2 * (1 - c) := by
      simp only [Quat.normSq]
      linear_combination hf1
    rw [Quat.rotate, key, hN]
    simp only [Vec3.smul, Vec3.mk.injEq]
    refine ⟨?_, ?_, ?_⟩ <;> field_simp

/-- Rotating `(0, 0, 1)` by the track quaternion of a unit vector gives the
negated vector (the viewport's backward axis points away from the track
direction). -/
theorem rotate_to_track_quat_posZ (f : Vec3) (hf : f.normSq = 1) :
    (Vec3.to_track_quat f).rotate ⟨0, 0, 1⟩ = f.neg := by
  obtain ⟨a, b, c⟩ := f
  have hf1 : a ^ 2 + b ^ 2 + c ^ 2 = 1 := by simpa [Vec3.normSq] using hf
  rw [Vec3.to_track_quat]
  by_cases hdeg : a = 0 ∧ b = 0 ∧ 0 < c
  · obtain ⟨ha, hb, hc⟩ := hdeg
    subst ha; subst hb
    have hc1 : c = 1 := by nlinarith
    subst hc1
    rw [if_pos (by norm_num)]
    simp [Quat.rotate, Quat.mul, Quat.conj, Quat.normSq, Quat.ofVec, Quat.vec,
      Vec3.smul, Vec3.neg]
  · have hc1 : c ≠ 1 := by
      intro hc
      subst hc
      have ha : a = 0 := by nlinarith
      have hb : b = 0 := by nlinarith
      exact hdeg ⟨ha, hb, by norm_num⟩
    have h1c : (1 : ℝ) - c ≠ 0 := sub_ne_zero.mpr fun hh => hc1 hh.symm
    rw [if_neg hdeg]
    have key : ((Quat.mul ⟨1 - c, b, -a, 0⟩ (Quat.ofVec ⟨0, 0, 1⟩)).mul
        (Quat.conj ⟨1 - c, b, -a, 0⟩)).vec = Vec3.smul (2 * (1 - c)) ⟨-a, -b, -c⟩ := by
      simp only [Quat.mul, Quat.ofVec, Quat.conj, Quat.vec, Vec3.smul, Vec3.mk.injEq]
      refine ⟨by ring, by ring, by linear_combination (-1 : ℝ) * hf1⟩
    have hN : Quat.normSq ⟨1 - c, b, -a, 0⟩ = 2 * (1 - c) := by
      simp only [Quat.normSq]
      linear_combination hf1
    rw [Quat.rotate, key, hN]
    simp only [Vec3.smul, Vec3.neg, Vec3.mk.injEq]
    refine ⟨?_, ?_, ?_⟩ <;> (field_simp; try ring)

theorem invoke_region_data (name : String) (g : GState) (ctx : Ctx) (ev : Event)
    (lo : Obj) (hl : lookupObj ctx.objects name = some lo) :
    (invoke name g ctx ev).ctx.region_data =
      { view_location := lo.location, view_rotation := invokeViewRotation lo,
        view_distance := 1 / 1000, view_perspective := ViewPers.PERSP } := by
  by_cases hdir : isDirectional lo.data_type = true
  · simp [invoke, invokeViewRotation, hl, hdir]
  · by_cases hq : lo.rotation_mode = RotMode.QUATERNION
    · simp [invoke, invokeViewRotation, hl, hdir, hq]
    · simp [invoke, invokeViewRotation, hl, hdir, hq]

theorem invoke_space_data (name : String) (g : GState) (ctx : Ctx) (ev : Event)
    (lo : Obj) (hl : lookupObj ctx.objects name = some lo) :
    (invoke name g ctx ev).ctx.space_data =
      { use_local_camera := false, camera := ctx.space_data.camera } := by
  simp [invoke, hl]

theorem invoke_g (name : String) (g : GState) (ctx : Ctx) (ev : Event)
    (lo : Obj) (hl : lookupObj ctx.objects name = some lo) :
    (invoke name g ctx ev).g =
      { is_piloting := true, piloted_light := some lo.name,
        previous_view_state :=
          { view_location := some ctx.region_data.view_location,
            view_rotation := some ctx.region_data.view_rotation,
            view_distance := some ctx.region_data.view_distance,
            view_perspective := some ctx.region_data.view_perspective,
            use_local_camera := some ctx.space_data.use_local_camera,
            camera := some ctx.space_data.camera } } := by
  simp [invoke, hl]

theorem invoke_objects (name : String) (g : GState) (ctx : Ctx) (ev : Event)
    (lo : Obj) (hl : lookupObj ctx.objects name = some lo) :
    (invoke name g ctx ev).ctx.objects = ctx.objects := by
  simp [invoke, hl]

theorem invoke_area (name : String) (g : GState) (ctx : Ctx) (ev : Event)
    (lo : Obj) (hl : lookupObj ctx.objects name = some lo) :
    (invoke name g ctx ev).ctx.area_type = ctx.area_type := by
  simp [invoke, hl]

theorem modal_lookup_ticked (name : String) (g : GState) (ctx : Ctx) (ev : Event)
    (lo : Obj) (hp : g.is_piloting = true) (ha : ctx.area_type = AreaType.VIEW_3D)
    (hl : lookupObj ctx.objects name = some lo) :
    lookupObj (modal name g ctx ev).ctx.objects name =
      some (tickedLight ctx.region_data lo) := by
  by_cases hdir : isDirectional lo.data_type = true <;>
    by_cases hq : lo.rotation_mode = RotMode.QUATERNION <;>
      by_cases hesc : ev.type = EventType.ESC ∧ ev.value = EventValue.PRESS <;>
        simp [modal, tickedLight, hp, ha, hl, hdir, hq, hesc, cleanup_objects,
          lookupObj_updateObj]

theorem modal_region_data_of_not_esc (name : String) (g : GState) (ctx : Ctx)
    (ev : Event) (lo : Obj) (hp : g.is_piloting = true)
    (ha : ctx.area_type = AreaType.VIEW_3D)
    (hl : lookupObj ctx.objects name = some lo)
    (he : ¬(ev.type = EventType.ESC ∧ ev.value = EventValue.PRESS)) :
    (modal name g ctx ev).ctx.region_data = ctx.region_data := by
  by_cases hdir : isDirectional lo.data_type = true <;>
    by_cases hq : lo.rotation_mode = RotMode.QUATERNION <;>
      simp [modal, hp, ha, hl, hdir, hq, he]

theorem tickedLight_location (r : RegionData) (lo : Obj) :
    (tickedLight r lo).location = r.viewMatrixInvTranslation := by
  by_cases hdir : isDirectional lo.data_type = true
  · by_cases hq : lo.rotation_mode = RotMode.QUATERNION <;> simp [tickedLight, hdir, hq]
  · simp [tickedLight, hdir]

/-! Theorems for the specification claims. -/

/-- C10: starting with a light name that does not exist reports the error
notice, returns CANCELLED, and mutates nothing: the globals (in particular
the saved snapshot and active flag) and the whole context are unchanged. -/
theorem C10_start_missing_light_atomic (name : String) (g : GState) (ctx : Ctx)
    (ev : Event) (hl : lookupObj ctx.objects name = none) :
    invoke name g ctx ev =
      { g := g, ctx := ctx,
        reports := [(RLevel.ERROR, "Could not find the specified light")],
        ret := OpResult.CANCELLED } := by
  simp [invoke, hl]

/-- Witness for C10 at a concrete input: looking up a name absent from the
scene, Start cancels and leaves everything unchanged. -/
theorem C10_start_missing_light_atomic_witness :
    lookupObj ctxSun.objects "Ghost" = none ∧
    invoke "Ghost" gIdle ctxSun evOther =
      { g := gIdle, ctx := ctxSun,
        reports := [(RLevel.ERROR, "Could not find the specified light")],
        ret := OpResult.CANCELLED } :=
  ⟨rfl, C10_start_missing_light_atomic "Ghost" gIdle ctxSun evOther rfl⟩

/-- C1 (counterexample): at a tick of an active session in a 3D viewport
whose referenced light is gone from the scene, the claim says the tick runs
Stop() and reports completion; in fact the tick leaves the globals and
context untouched (the snapshot is not restored, the session stays active)
and returns PASS_THROUGH with no report. -/
theorem C1_counterexample :
    gActive.is_piloting = true ∧
    ctxSun.area_type = AreaType.VIEW_3D ∧
    lookupObj ctxSun.objects "KeyLight" = none ∧
    gActive.previous_view_state.isEmpty = false ∧
    modal "KeyLight" gActive ctxSun evOther =
      { g := gActive, ctx := ctxSun, reports := [], ret := OpResult.PASS_THROUGH } :=
  ⟨rfl, rfl, rfl, rfl, rfl⟩

/-- C1 (amended): at a tick of an active session in a 3D viewport whose
referenced light no longer exists, the tick does not terminate the session:
it performs no state change, issues no report, and returns PASS_THROUGH. -/
theorem C1_missing_light_passes_through (name : String) (g : GState) (ctx : Ctx)
    (ev : Event) (hp : g.is_piloting = true)
    (ha : ctx.area_type = AreaType.VIEW_3D)
    (hl : lookupObj ctx.objects name = none) :
    modal name g ctx ev =
      { g := g, ctx := ctx, reports := [], ret := OpResult.PASS_THROUGH } := by
  simp [modal, hp, ha, hl]

/-- Witness for the amended C1 at a concrete input. -/
theorem C1_missing_light_passes_through_witness :
    gActiveLamp.is_piloting = true ∧
    ctxSun.area_type = AreaType.VIEW_3D ∧
    lookupObj ctxSun.objects "Lamp" = none ∧
    modal "Lamp" gActiveLamp ctxSun evOther =
      { g := gActiveLamp, ctx := ctxSun, reports := [],
        ret := OpResult.PASS_THROUGH } :=
  ⟨rfl, rfl, rfl,
    C1_missing_light_passes_through "Lamp" gActiveLamp ctxSun evOther rfl rfl rfl⟩

/-- C4: Stop() is idempotent. `cleanup` is a total function (it cannot
raise), and running it on the state it produced returns exactly the same
outcome: same globals, same context, same report, same return value. -/
theorem C4_cleanup_idempotent (g : GState) (ctx : Ctx) :
    cleanup (cleanup g ctx).g (cleanup g ctx).ctx = cleanup g ctx := by
  obtain ⟨gp, gl, gs⟩ := g
  obtain ⟨atype, rd, sd, ⟨sal, ssc⟩, objs, aob⟩ := ctx
  have hemp : SavedViewState.empty.isEmpty = true := rfl
  by_cases h : gs.isEmpty = true
  · have he := SavedViewState.eq_empty_of_isEmpty h
    simp [cleanup, restore_view_state, he, hemp]
  · simp [cleanup, restore_view_state, h, hemp]

/-- C3: Start on an existing light followed immediately by Stop() with no
intervening tick restores every captured view field (pivot, rotation,
distance, projection, local-camera flag, camera) exactly to its pre-Start
value — the whole region and space state round-trips — and consumes the
snapshot. The camera entry is only written back when its saved value is
truthy, but a falsy saved camera was `none` before Start and Start never
touches the camera, so that field round-trips as well. -/
theorem C3_start_stop_roundtrip (name : String) (g : GState) (ctx : Ctx) (ev : Event)
    (lo : Obj) (hl : lookupObj ctx.objects name = some lo) :
    (cleanup (invoke name g ctx ev).g (invoke name g ctx ev).ctx).ctx.region_data =
      ctx.region_data ∧
    (cleanup (invoke name g ctx ev).g (invoke name g ctx ev).ctx).ctx.space_data =
      ctx.space_data ∧
    (cleanup (invoke name g ctx ev).g (invoke name g ctx ev).ctx).g.previous_view_state =
      SavedViewState.empty := by
  obtain ⟨atype, rd, sd, sc, objs, aob⟩ := ctx
  obtain ⟨vl, vr, vd, vp⟩ := rd
  obtain ⟨ulc, cam⟩ := sd
  cases cam <;>
    simp [invoke, cleanup, restore_view_state, SavedViewState.isEmpty, hl]

/-- Witness for C3 at a concrete input: start on the Sun light from an
orthographic viewport with a bound camera, then stop immediately. -/
theorem C3_start_stop_roundtrip_witness :
    lookupObj ctxSun.objects "Sun" = some sunObj ∧
    ((cleanup (invoke "Sun" gIdle ctxSun evOther).g
        (invoke "Sun" gIdle ctxSun evOther).ctx).ctx.region_data =
      ctxSun.region_data ∧
    (cleanup (invoke "Sun" gIdle ctxSun evOther).g
        (invoke "Sun" gIdle ctxSun evOther).ctx).ctx.space_data =
      ctxSun.space_data ∧
    (cleanup (invoke "Sun" gIdle ctxSun evOther).g
        (invoke "Sun" gIdle ctxSun evOther).ctx).g.previous_view_state =
      SavedViewState.empty) :=
  ⟨rfl, C3_start_stop_roundtrip "Sun" gIdle ctxSun evOther sunObj rfl⟩

/-- C8: when a session is active, the Exit command only flips the active
flag — the target reference, the snapshot, the viewport and the scene are
untouched and no report is issued — and the very next tick of the modal
loop, whatever its event, performs Stop() (the cleanup happens inside the
tick loop) and reports completion. -/
theorem C8_exit_flips_flag_only (name : String) (g : GState) (ctx : Ctx) (ev : Event)
    (hp : g.is_piloting = true) :
    exit_execute g ctx =
      { g := { g with is_piloting := false }, ctx := ctx, reports := [],
        ret := OpResult.FINISHED } ∧
    modal name (exit_execute g ctx).g (exit_execute g ctx).ctx ev =
      cleanup (exit_execute g ctx).g (exit_execute g ctx).ctx ∧
    (modal name (exit_execute g ctx).g (exit_execute g ctx).ctx ev).ret =
      OpResult.FINISHED ∧
    (modal name (exit_execute g ctx).g (exit_execute g ctx).ctx ev).reports =
      [(RLevel.INFO, "Exited light pilot mode")] := by
  have hmod : modal name (exit_execute g ctx).g (exit_execute g ctx).ctx ev =
      cleanup (exit_execute g ctx).g (exit_execute g ctx).ctx := by
    simp [modal, exit_execute]
  exact ⟨rfl, hmod, by rw [hmod, cleanup_ret], by rw [hmod, cleanup_reports]⟩

/-- Witness for C8 at a concrete input: exit the active KeyLight session,
then tick once. -/
theorem C8_exit_flips_flag_only_witness :
    gActive.is_piloting = true ∧
    (exit_execute gActive ctxTwo =
      { g := { gActive with is_piloting := false }, ctx := ctxTwo, reports := [],
        ret := OpResult.FINISHED } ∧
    modal "KeyLight" (exit_execute gActive ctxTwo).g (exit_execute gActive ctxTwo).ctx
        evOther =
      cleanup (exit_execute gActive ctxTwo).g (exit_execute gActive ctxTwo).ctx ∧
    (modal "KeyLight" (exit_execute gActive ctxTwo).g (exit_execute gActive ctxTwo).ctx
        evOther).ret = OpResult.FINISHED ∧
    (modal "KeyLight" (exit_execute gActive ctxTwo).g (exit_execute gActive ctxTwo).ctx
        evOther).reports = [(RLevel.INFO, "Exited light pilot mode")]) :=
  ⟨rfl, C8_exit_flips_flag_only "KeyLight" gActive ctxTwo evOther rfl⟩

/-- C2 (code bug): with a session already active on KeyLight (saved snapshot
distance entry 5) and FillLight present and selected, Start is not rejected:
the start operator's poll is true (it never consults the session flag), the
modal invoke runs to RUNNING_MODAL, retargets the session to FillLight, and
overwrites the saved snapshot with the current viewport (distance entry 2),
so the active session's snapshot is destroyed — contradicting the claim that
a double start is rejected by a precondition before any mutation. -/
theorem C2_double_start_not_rejected :
    gActive.is_piloting = true ∧
    gActive.piloted_light = some "KeyLight" ∧
    pilot_poll ctxTwo = true ∧
    gActive.previous_view_state.view_distance = some 5 ∧
    (invoke "FillLight" gActive ctxTwo evOther).ret = OpResult.RUNNING_MODAL ∧
    (invoke "FillLight" gActive ctxTwo evOther).g.is_piloting = true ∧
    (invoke "FillLight" gActive ctxTwo evOther).g.piloted_light = some "FillLight" ∧
    (invoke "FillLight" gActive ctxTwo evOther).g.previous_view_state.view_distance =
      some 2 ∧
    (invoke "FillLight" gActive ctxTwo evOther).g.previous_view_state ≠
      gActive.previous_view_state := by
  have hnew : (invoke "FillLight" gActive ctxTwo evOther).g.previous_view_state.view_distance =
      some 2 := rfl
  have hold : gActive.previous_view_state.view_distance = some 5 := rfl
  refine ⟨rfl, rfl, rfl, hold, rfl, rfl, rfl, hnew, ?_⟩
  intro h
  rw [h, hold] at hnew
  exact absurd (Option.some.inj hnew) (by norm_num)

/-- C7: at any tick of an active session in a 3D viewport whose target is a
POINT light, the tick leaves both orientation fields of the light
(rotation_quaternion and rotation_euler) — and every other field except the
position — unchanged, and overwrites only the position with the eye
position. This holds for every event, including an escape press. -/
theorem C7_point_light_orientation_untouched (name : String) (g : GState)
    (ctx : Ctx) (ev : Event) (lo : Obj) (hp : g.is_piloting = true)
    (ha : ctx.area_type = AreaType.VIEW_3D)
    (hl : lookupObj ctx.objects name = some lo)
    (ht : lo.data_type = LightType.POINT) :
    lookupObj (modal name g ctx ev).ctx.objects name =
      some { lo with location := ctx.region_data.viewMatrixInvTranslation } := by
  rw [modal_lookup_ticked name g ctx ev lo hp ha hl]
  simp [tickedLight, ht, isDirectional]

/-- Witness for C7 at a concrete input: tick the active Lamp session once. -/
theorem C7_point_light_orientation_untouched_witness :
    gActiveLamp.is_piloting = true ∧
    ctxLamp.area_type = AreaType.VIEW_3D ∧
    lookupObj ctxLamp.objects "Lamp" = some pointObj ∧
    pointObj.data_type = LightType.POINT ∧
    lookupObj (modal "Lamp" gActiveLamp ctxLamp evOther).ctx.objects "Lamp" =
      some { pointObj with location := ctxLamp.region_data.viewMatrixInvTranslation } :=
  ⟨rfl, rfl, rfl, rfl,
    C7_point_light_orientation_untouched "Lamp" gActiveLamp ctxLamp evOther pointObj
      rfl rfl rfl rfl⟩

/-- C6: after Start on an existing light the viewport pivot is the light's
position, the projection is perspective with local camera off, and the view
distance is the constant 1/1000; and after the first subsequent tick (in the
3D viewport, with a non-escape event) the light's position equals the eye
position derived from the view transform (`view_matrix.inverted().translation`). -/
theorem C6_pivot_and_eye (name : String) (g : GState) (ctx : Ctx) (ev : Event)
    (lo : Obj) (hl : lookupObj ctx.objects name = some lo)
    (ha : ctx.area_type = AreaType.VIEW_3D)
    (he : ¬(ev.type = EventType.ESC ∧ ev.value = EventValue.PRESS)) :
    (invoke name g ctx ev).ctx.region_data.view_location = lo.location ∧
    (invoke name g ctx ev).ctx.region_data.view_perspective = ViewPers.PERSP ∧
    (invoke name g ctx ev).ctx.space_data.use_local_camera = false ∧
    (invoke name g ctx ev).ctx.region_data.view_distance = 1 / 1000 ∧
    Option.map (fun o => o.location)
      (lookupObj (modal name (invoke name g ctx ev).g (invoke name g ctx ev).ctx
        ev).ctx.objects name) =
      some (RegionData.viewMatrixInvTranslation
        (modal name (invoke name g ctx ev).g (invoke name g ctx ev).ctx
          ev).ctx.region_data) := by
  have hrd := invoke_region_data name g ctx ev lo hl
  have hsd := invoke_space_data name g ctx ev lo hl
  have hg := invoke_g name g ctx ev lo hl
  have hobjs := invoke_objects name g ctx ev lo hl
  have harea := invoke_area name g ctx ev lo hl
  have hp1 : (invoke name g ctx ev).g.is_piloting = true := by rw [hg]
  have ha1 : (invoke name g ctx ev).ctx.area_type = AreaType.VIEW_3D := by
    rw [harea, ha]
  have hl1 : lookupObj (invoke name g ctx ev).ctx.objects name = some lo := by
    rw [hobjs, hl]
  have htick := modal_lookup_ticked name (invoke name g ctx ev).g
    (invoke name g ctx ev).ctx ev lo hp1 ha1 hl1
  have hreg := modal_region_data_of_not_esc name (invoke name g ctx ev).g
    (invoke name g ctx ev).ctx ev lo hp1 ha1 hl1 he
  refine ⟨by rw [hrd], by rw [hrd], by rw [hsd], by rw [hrd], ?_⟩
  rw [htick, hreg]
  simp [tickedLight_location]

/-- Witness for C6 at a concrete input: start on the Sun light and tick once
with a non-escape event. -/
theorem C6_pivot_and_eye_witness :
    lookupObj ctxSun.objects "Sun" = some sunObj ∧
    ctxSun.area_type = AreaType.VIEW_3D ∧
    ¬(evOther.type = EventType.ESC ∧ evOther.value = EventValue.PRESS) ∧
    ((invoke "Sun" gIdle ctxSun evOther).ctx.region_data.view_location =
      sunObj.location ∧
    (invoke "Sun" gIdle ctxSun evOther).ctx.region_data.view_perspective =
      ViewPers.PERSP ∧
    (invoke "Sun" gIdle ctxSun evOther).ctx.space_data.use_local_camera = false ∧
    (invoke "Sun" gIdle ctxSun evOther).ctx.region_data.view_distance = 1 / 1000 ∧
    Option.map (fun o => o.location)
      (lookupObj (modal "Sun" (invoke "Sun" gIdle ctxSun evOther).g
        (invoke "Sun" gIdle ctxSun evOther).ctx evOther).ctx.objects "Sun") =
      some (RegionData.viewMatrixInvTranslation
        (modal "Sun" (invoke "Sun" gIdle ctxSun evOther).g
          (invoke "Sun" gIdle ctxSun evOther).ctx evOther).ctx.region_data)) :=
  ⟨rfl, rfl, by decide,
    C6_pivot_and_eye "Sun" gIdle ctxSun evOther sunObj rfl rfl (by decide)⟩

/-- C9 (counterexample): the claim says every escape-press tick of an active
session runs Stop() and reports completion; but when the referenced light is
missing from the scene, the escape press is passed through untouched — no
cleanup, no report, the snapshot stays unconsumed and the session stays
active. -/
theorem C9_counterexample :
    gActive.is_piloting = true ∧
    ctxSun.area_type = AreaType.VIEW_3D ∧
    lookupObj ctxSun.objects "KeyLight" = none ∧
    evEsc.type = EventType.ESC ∧ evEsc.value = EventValue.PRESS ∧
    gActive.previous_view_state.isEmpty = false ∧
    modal "KeyLight" gActive ctxSun evEsc =
      { g := gActive, ctx := ctxSun, reports := [], ret := OpResult.PASS_THROUGH } :=
  ⟨rfl, rfl, rfl, rfl, rfl, rfl, rfl⟩

/-- C9 (amended): at a tick of an active session in a 3D viewport whose
event is an escape press, provided the referenced light still exists in the
scene, the tick runs Stop() — the active flag and target are cleared, the
snapshot is consumed — and reports completion with FINISHED. -/
theorem C9_escape_stops_when_light_exists (name : String) (g : GState) (ctx : Ctx)
    (ev : Event) (lo : Obj) (hp : g.is_piloting = true)
    (ha : ctx.area_type = AreaType.VIEW_3D)
    (hl : lookupObj ctx.objects name = some lo)
    (he : ev.type = EventType.ESC ∧ ev.value = EventValue.PRESS) :
    (modal name g ctx ev).ret = OpResult.FINISHED ∧
    (modal name g ctx ev).g =
      { is_piloting := false, piloted_light := none,
        previous_view_state := SavedViewState.empty } ∧
    (modal name g ctx ev).reports = [(RLevel.INFO, "Exited light pilot mode")] := by
  refine ⟨?_, ?_, ?_⟩ <;>
    (by_cases hdir : isDirectional lo.data_type = true <;>
      by_cases hq : lo.rotation_mode = RotMode.QUATERNION <;>
        simp [modal, hp, ha, hl, hdir, hq, he, cleanup_ret, cleanup_g, cleanup_reports])

/-- Witness for the amended C9 at a concrete input: escape-press tick of the
active Lamp session. -/
theorem C9_escape_stops_when_light_exists_witness :
    gActiveLamp.is_piloting = true ∧
    ctxLamp.area_type = AreaType.VIEW_3D ∧
    lookupObj ctxLamp.objects "Lamp" = some pointObj ∧
    (evEsc.type = EventType.ESC ∧ evEsc.value = EventValue.PRESS) ∧
    ((modal "Lamp" gActiveLamp ctxLamp evEsc).ret = OpResult.FINISHED ∧
    (modal "Lamp" gActiveLamp ctxLamp evEsc).g =
      { is_piloting := false, piloted_light := none,
        previous_view_state := SavedViewState.empty } ∧
    (modal "Lamp" gActiveLamp ctxLamp evEsc).reports =
      [(RLevel.INFO, "Exited light pilot mode")]) :=
  ⟨rfl, rfl, rfl, ⟨rfl, rfl⟩,
    C9_escape_stops_when_light_exists "Lamp" gActiveLamp ctxLamp evEsc pointObj
      rfl rfl rfl ⟨rfl, rfl⟩⟩

/-- C5: after Start on a directional-capable light whose facing direction
`normalize(matrix_world_rotation applied to (0, 0, -1))` is a unit vector,
the installed view rotation is exactly the track quaternion of that facing
direction, and the viewport's computed forward axis
(`-view_matrix.to_3x3()[2].normalized()`) equals the facing direction. -/
theorem C5_forward_axis (name : String) (g : GState) (ctx : Ctx) (ev : Event)
    (lo : Obj) (hl : lookupObj ctx.objects name = some lo)
    (hd : isDirectional lo.data_type = true)
    (hu : (Vec3.normalize (lo.matrix_world_quat.rotate ⟨0, 0, -1⟩)).normSq = 1) :
    (invoke name g ctx ev).ctx.region_data.view_rotation =
      (Vec3.normalize (lo.matrix_world_quat.rotate ⟨0, 0, -1⟩)).to_track_quat ∧
    RegionData.forwardAxis (invoke name g ctx ev).ctx.region_data =
      Vec3.normalize (lo.matrix_world_quat.rotate ⟨0, 0, -1⟩) := by
  have hrd := invoke_region_data name g ctx ev lo hl
  have hnu : (Vec3.normalize (lo.matrix_world_quat.rotate ⟨0, 0, -1⟩)).neg.normSq = 1 := by
    rw [Vec3.normSq_neg]
    exact hu
  constructor
  · rw [hrd]
    simp [invokeViewRotation, hd]
  · rw [hrd]
    simp only [RegionData.forwardAxis, RegionData.viewMatrixRow2, invokeViewRotation,
      hd, if_true]
    rw [rotate_to_track_quat_posZ _ hu, Vec3.normalize_of_unit hnu, Vec3.neg_neg_eq]

/-- Witness for C5 at a concrete input: the Sun light with identity world
rotation faces (0, 0, -1); after Start the viewport's computed forward axis
is exactly that direction. -/
theorem C5_forward_axis_witness :
    lookupObj ctxSun.objects "Sun" = some sunObj ∧
    isDirectional sunObj.data_type = true ∧
    (Vec3.normalize (sunObj.matrix_world_quat.rotate ⟨0, 0, -1⟩)).normSq = 1 ∧
    ((invoke "Sun" gIdle ctxSun evOther).ctx.region_data.view_rotation =
      (Vec3.normalize (sunObj.matrix_world_quat.rotate ⟨0, 0, -1⟩)).to_track_quat ∧
    RegionData.forwardAxis (invoke "Sun" gIdle ctxSun evOther).ctx.region_data =
      Vec3.normalize (sunObj.matrix_world_quat.rotate ⟨0, 0, -1⟩)) := by
  have hu : (Vec3.normalize (sunObj.matrix_world_quat.rotate ⟨0, 0, -1⟩)).normSq = 1 := by
    norm_num [sunObj, qId, Quat.rotate, Quat.mul, Quat.ofVec, Quat.conj, Quat.normSq,
      Quat.vec, Vec3.normalize, Vec3.norm, Vec3.normSq, Vec3.smul, Real.sqrt_one]
  exact ⟨rfl, rfl, hu, C5_forward_axis "Sun" gIdle ctxSun evOther sunObj rfl rfl hu⟩
